import Mathlib

/-!
# RobCoG: hand grasping and motion-controller hand tracking

A shallow embedding of `Source/RobCoG/Hand.cpp` (`AHand`) and of the rotation
part of `Source/RobCoG/MCCharacter.cpp` (`AMCCharacter`).

Conventions of the embedding.

* Engine `float` values are rationals: every statement below is about which
  value is compared, stored or multiplied, taken over exact arithmetic.
* Pointers are identifiers.  A nullable pointer is an `Option`.
* A static mesh actor that a hand tracks (`OneHandGraspableObjects`,
  `GraspedObject`, `PossibleTwoHandGraspObject`) is referred to by an `ObjId`;
  the world maps every `ObjId` to the state of that actor.  The only places
  where such a pointer enters a hand are Hand.cpp:111 and Hand.cpp:115, after
  `IsGraspable` has seen a non-null actor with a non-null static mesh
  component, so an `ObjId` always denotes an actor that has its component.
* A dereference of a null pointer is a fault: the function returns `none`.
-/

namespace RobCoG

/-! ## Engine value types -/

/-- Engine `FVector` over exact arithmetic. -/
structure FVector where
  X : ℚ
  Y : ℚ
  Z : ℚ
deriving DecidableEq

/-- Engine `FRotator`; the constructor order is `FRotator(InPitch, InYaw, InRoll)`. -/
structure FRotator where
  Pitch : ℚ
  Yaw : ℚ
  Roll : ℚ
deriving DecidableEq

/-- Engine `FQuat` over exact arithmetic. -/
structure FQuat where
  X : ℚ
  Y : ℚ
  Z : ℚ
  W : ℚ
deriving DecidableEq

/-! ## Actors -/

/-- Identity of a static mesh actor (an `AStaticMeshActor*` that is not null). -/
abbrev ObjId := Nat

/-- Identity of a hand (an `AHand*` that is not null). -/
abbrev HandId := Nat

/-- Identity of a physics constraint (an `FConstraintInstance*`). -/
abbrev ConstraintId := Nat

/-- The actor returned by `GetAttachParentActor()` when it is not null:
either a hand (`IsA(AHand::StaticClass())` holds) or an actor of another class. -/
inductive AttachParent where
  | Hand (h : HandId)
  | Other
deriving DecidableEq

/-- State of an `AStaticMeshActor` together with its `UStaticMeshComponent`
(the root component of such an actor). -/
structure AStaticMeshActor where
  /-- Result of `IsRootComponentMovable()`. -/
  bRootComponentMovable : Bool
  /-- Result of `GetStaticMeshComponent()->IsSimulatingPhysics()`. -/
  bSimulatePhysics : Bool
  /-- Result of `GetStaticMeshComponent()->GetMass()`. -/
  Mass : ℚ
  /-- Result of `GetComponentsBoundingBox().GetSize().Size()`. -/
  Length : ℚ
  /-- Result of `GetAttachParentActor()`. -/
  AttachParentActor : Option AttachParent
  /-- Linear velocity set by `SetPhysicsLinearVelocity`. -/
  LinearVelocity : FVector
deriving DecidableEq

/-- What an `AActor*` that is not null points to, as far as `Cast<AStaticMeshActor>`
and `GetStaticMeshComponent()` can tell. -/
inductive AActor where
  /-- A static mesh actor that has its static mesh component. -/
  | StaticMesh (o : ObjId)
  /-- A static mesh actor whose `GetStaticMeshComponent()` is null. -/
  | StaticMeshWithoutComponent
  /-- An actor of any other class: the cast gives null. -/
  | OtherClass
deriving DecidableEq

/-- Modelled from the spec: the grasp codes `HAND_NONE`, `HAND_ONE`, `HAND_TWO`
that `IsGraspable` returns are declared in `Hand.h`, which is not among the
sources; they are taken as three distinct values. -/
inductive GraspCode where
  | HAND_NONE
  | HAND_ONE
  | HAND_TWO
deriving DecidableEq

export GraspCode (HAND_NONE HAND_ONE HAND_TWO)

/-! ## Fingers and constraints -/

/-- The part of an `FConstraintInstance` that `UpdateGrasp` writes: the angular
orientation target.  The engine call is
`SetAngularOrientationTarget(FQuat(FRotator(..)))`; the target is kept as the
rotator whose quaternion is passed. -/
structure FConstraintInstance where
  AngularOrientationTarget : FRotator
deriving DecidableEq

/-- Finger parts, the keys of `FingerPartToConstraint`. -/
inductive EFingerPart where
  | Metacarpal
  | Proximal
  | Intermediate
  | Distal
deriving DecidableEq

/-- The part of `FFinger` that `UpdateGrasp` reads: the map
`FingerPartToConstraint` from finger parts to constraints, as its list of
entries. -/
structure FFinger where
  FingerPartToConstraint : List (EFingerPart × ConstraintId)
deriving DecidableEq

/-! ## The hand -/

/-- State of an `AHand`. -/
structure AHand where
  GraspedObject : Option ObjId
  OneHandGraspableObjects : List ObjId
  PossibleTwoHandGraspObject : Option ObjId
  bGraspHeld : Bool
  bTwoHandGraspActive : Bool
  OneHandFixationMaximumMass : ℚ
  OneHandFixationMaximumLength : ℚ
  TwoHandsFixationMaximumMass : ℚ
  TwoHandsFixationMaximumLength : ℚ
  /-- Result of `GetVelocity()`. -/
  Velocity : FVector
  Thumb : FFinger
  Index : FFinger
  Middle : FFinger
  Ring : FFinger
  Pinky : FFinger
  /-- The constraint instances of the skeletal mesh component. -/
  Constraints : ConstraintId → FConstraintInstance

/-- The world: every hand and every static mesh actor with its state. -/
structure World where
  Hands : HandId → AHand
  Objects : ObjId → AStaticMeshActor

/-- Fixation grasp parameters set by the constructor `AHand::AHand`
(Hand.cpp:16-23), on a hand with no fingers set up and nothing tracked. -/
def AHand.ctor : AHand where
  GraspedObject := none
  OneHandGraspableObjects := []
  PossibleTwoHandGraspObject := none
  bGraspHeld := false
  bTwoHandGraspActive := false
  OneHandFixationMaximumMass := 5
  OneHandFixationMaximumLength := 50
  TwoHandsFixationMaximumMass := 15
  TwoHandsFixationMaximumLength := 120
  Velocity := ⟨0, 0, 0⟩
  Thumb := ⟨[]⟩
  Index := ⟨[]⟩
  Middle := ⟨[]⟩
  Ring := ⟨[]⟩
  Pinky := ⟨[]⟩
  Constraints := fun _ => ⟨⟨0, 0, 0⟩⟩

/-- The engine cast `Cast<AStaticMeshActor>(InActor)` followed by
`GetStaticMeshComponent()`, as far as the result is a tracked object:
`some o` when the actor is a static mesh actor with its component. -/
def CastStaticMesh (InActor : Option AActor) : Option ObjId :=
  match InActor with
  | some (AActor.StaticMesh o) => some o
  | _ => none

/-- Embedding of `AHand::IsGraspable` (Hand.cpp:136-166). -/
def IsGraspable (self : AHand) (w : World) (InActor : Option AActor) : GraspCode :=
  match InActor with
  | some (AActor.StaticMesh o) =>
    let SMActor := w.Objects o
    let bIsLegalComponent := SMActor.bRootComponentMovable && SMActor.bSimulatePhysics
    let Mass := SMActor.Mass
    let Length := SMActor.Length
    let bOneHandGraspable : Bool :=
      decide (Mass < self.OneHandFixationMaximumMass)
        && decide (Length < self.OneHandFixationMaximumLength)
    if bIsLegalComponent && bOneHandGraspable then
      HAND_ONE
    else if Mass < self.TwoHandsFixationMaximumMass
        ∧ Length < self.TwoHandsFixationMaximumLength then
      HAND_TWO
    else
      HAND_NONE
  | _ => HAND_NONE

/-- Embedding of `AHand::OnAttachmentCollisionBeginOverlap` (Hand.cpp:101-118).
`Emplace` appends at the end of the array.  When `IsGraspable` gives `HAND_ONE`
the cast of `OtherActor` is not null (`IsGraspable_HAND_ONE_cast`), so the
`none` branch of the inner match is never taken. -/
def OnAttachmentCollisionBeginOverlap (self : AHand) (w : World)
    (OtherActor : Option AActor) : AHand :=
  match self.GraspedObject with
  | none =>
    let Graspable := IsGraspable self w OtherActor
    if Graspable = HAND_ONE then
      match CastStaticMesh OtherActor with
      | some o =>
        { self with OneHandGraspableObjects := self.OneHandGraspableObjects ++ [o] }
      | none => self
    else if Graspable = HAND_TWO then
      { self with PossibleTwoHandGraspObject := CastStaticMesh OtherActor }
    else
      self
  | some _ => self

/-- Engine `TArray::Remove(Item)`: removes every element equal to `Item` and
keeps the order of the others.  A null `Item` matches nothing, the array holds
no null entry. -/
def TArrayRemove (xs : List ObjId) (Item : Option ObjId) : List ObjId :=
  match Item with
  | some o => xs.filter (fun x => x ≠ o)
  | none => xs

/-- Embedding of `AHand::OnAttachmentCollisionEndOverlap` (Hand.cpp:121-133);
the log line has no effect on the state. -/
def OnAttachmentCollisionEndOverlap (self : AHand) (OtherActor : Option AActor) : AHand :=
  match self.GraspedObject with
  | none =>
    { self with
      OneHandGraspableObjects :=
        TArrayRemove self.OneHandGraspableObjects (CastStaticMesh OtherActor) }
  | some _ => self

/-- Embedding of `AHand::HoldGrasp` (Hand.cpp:169-208): everything but the last
statement is commented out in the source. -/
def HoldGrasp (self : AHand) : AHand :=
  { self with bGraspHeld := true }

/-- One loop of `AHand::UpdateGrasp`: for every entry of the finger's
`FingerPartToConstraint`, `SetAngularOrientationTarget` on the constraint the
entry points to. -/
def SetFingerTargets (Finger : FFinger) (Target : FRotator)
    (Constraints : ConstraintId → FConstraintInstance) : ConstraintId → FConstraintInstance :=
  Finger.FingerPartToConstraint.foldl
    (fun cs ConstrMapItr =>
      Function.update cs ConstrMapItr.2
        { cs ConstrMapItr.2 with AngularOrientationTarget := Target })
    Constraints

/-- Embedding of `AHand::UpdateGrasp` (Hand.cpp:331-360). -/
def UpdateGrasp (self : AHand) (Goal : ℚ) : AHand :=
  match self.GraspedObject with
  | none =>
    let Target : FRotator := ⟨0, 0, Goal * 100⟩
    let c1 := SetFingerTargets self.Thumb Target self.Constraints
    let c2 := SetFingerTargets self.Index Target c1
    let c3 := SetFingerTargets self.Middle Target c2
    let c4 := SetFingerTargets self.Ring Target c3
    let c5 := SetFingerTargets self.Pinky Target c4
    { self with Constraints := c5 }
  | some _ =>
    if !self.bGraspHeld then HoldGrasp self else self

/-! ## Attaching and detaching -/

/-- Replace the state of hand `h`. -/
def World.setHand (w : World) (h : HandId) (s : AHand) : World :=
  { w with Hands := Function.update w.Hands h s }

/-- Replace the state of static mesh actor `o`. -/
def World.setObject (w : World) (o : ObjId) (s : AStaticMeshActor) : World :=
  { w with Objects := Function.update w.Objects o s }

/-- The three engine calls both branches of `DetachFromHand` make on an object:
`DetachFromComponent`, `SetSimulatePhysics(true)` and
`SetPhysicsLinearVelocity(GetVelocity())`. -/
def ReleaseObject (w : World) (o : ObjId) (Velocity : FVector) : World :=
  let w1 := w.setObject o { w.Objects o with AttachParentActor := none }
  let w2 := w1.setObject o { w1.Objects o with bSimulatePhysics := true }
  w2.setObject o { w2.Objects o with LinearVelocity := Velocity }

/-- Embedding of `AHand::DetachFromHand` (Hand.cpp:394-419), called on hand
`self` of world `w`: the return value and the world afterwards. -/
def DetachFromHand (w : World) (self : HandId) : Bool × World :=
  let h := w.Hands self
  match h.GraspedObject with
  | some g =>
    let w1 := ReleaseObject w g h.Velocity
    (true, w1.setHand self { w1.Hands self with GraspedObject := none, bGraspHeld := false })
  | none =>
    match h.bTwoHandGraspActive, h.PossibleTwoHandGraspObject with
    | true, some p =>
      let w1 := ReleaseObject w p h.Velocity
      (true, w1.setHand self
        { w1.Hands self with PossibleTwoHandGraspObject := none, bTwoHandGraspActive := false })
    | _, _ => (false, w)

/-- Embedding of `AHand::AttachToHand` (Hand.cpp:368-391), called on hand `self`
of world `w`.  `Pop` removes and returns the last element.  After the call of
`OtherHand->DetachFromHand()` the member `GraspedObject` is read again from the
hand; dereferencing it when it is null is a fault, `none`. -/
def AttachToHand (w : World) (self : HandId) : Option (Bool × World) :=
  let h := w.Hands self
  match h.GraspedObject, h.OneHandGraspableObjects.getLast? with
  | none, some o =>
    let w1 := w.setHand self
      { h with GraspedObject := some o,
               OneHandGraspableObjects := h.OneHandGraspableObjects.dropLast }
    let w2 :=
      match (w1.Objects o).AttachParentActor with
      | some (AttachParent.Hand OtherHand) => (DetachFromHand w1 OtherHand).2
      | _ => w1
    match (w2.Hands self).GraspedObject with
    | none => none
    | some g =>
      let w3 := w2.setObject g { w2.Objects g with bSimulatePhysics := false }
      let w4 := w3.setObject g
        { w3.Objects g with AttachParentActor := some (AttachParent.Hand self) }
      some (true, w4)
  | _, _ => some (false, w)

/-- Embedding of `AHand::TwoHandAttach` (Hand.cpp:422-433). -/
def TwoHandAttach (w : World) (self : HandId) : Bool × World :=
  let h := w.Hands self
  match h.PossibleTwoHandGraspObject with
  | some p =>
    let w1 := w.setObject p { w.Objects p with bSimulatePhysics := false }
    let w2 := w1.setObject p
      { w1.Objects p with AttachParentActor := some (AttachParent.Hand self) }
    (true, w2.setHand self { w2.Hands self with bTwoHandGraspActive := true })
  | none => (false, w)

/-! ## Hand tracking of the motion controllers -/

/-- Engine `FQuat::operator*`: the Hamilton product. -/
def FQuat.mul (A B : FQuat) : FQuat where
  X := A.W * B.X + A.X * B.W + A.Y * B.Z - A.Z * B.Y
  Y := A.W * B.Y - A.X * B.Z + A.Y * B.W + A.Z * B.X
  Z := A.W * B.Z + A.X * B.Y - A.Y * B.X + A.Z * B.W
  W := A.W * B.W - A.X * B.X - A.Y * B.Y - A.Z * B.Z

/-- Engine `FQuat::operator|`: the dot product. -/
def FQuat.dot (A B : FQuat) : ℚ :=
  A.X * B.X + A.Y * B.Y + A.Z * B.Z + A.W * B.W

/-- Engine `FQuat::operator*=(float)`: scales every component. -/
def FQuat.scale (A : FQuat) (Scale : ℚ) : FQuat where
  X := A.X * Scale
  Y := A.Y * Scale
  Z := A.Z * Scale
  W := A.W * Scale

/-- Engine `FQuat::Inverse`: the conjugate. -/
def FQuat.Inverse (A : FQuat) : FQuat where
  X := -A.X
  Y := -A.Y
  Z := -A.Z
  W := A.W

/-- Engine `FVector::operator*(float)`. -/
def FVector.scale (V : FVector) (Scale : ℚ) : FVector where
  X := V.X * Scale
  Y := V.Y * Scale
  Z := V.Z * Scale

/-- Engine `FVector::operator-`. -/
def FVector.sub (A B : FVector) : FVector where
  X := A.X - B.X
  Y := A.Y - B.Y
  Z := A.Z - B.Z

/-- The part of a `USkeletalMeshComponent` that hand tracking reads and writes. -/
structure USkeletalMeshComponent where
  ComponentLocation : FVector
  ComponentQuat : FQuat
  /-- The force passed to the last `AddForceToAllBodiesBelow`. -/
  AddedForce : FVector
  /-- The velocity passed to the last `SetAllPhysicsAngularVelocity`. -/
  PhysicsAngularVelocity : FVector
deriving DecidableEq

/-- Local `TargetQuat` of `UpdateHandLocationAndRotation` (MCCharacter.cpp:202). -/
def TargetQuat (MCQuat RotOffset : FQuat) : FQuat :=
  MCQuat.mul RotOffset

/-- Local `CurrQuat` of `UpdateHandLocationAndRotation` after the sign flip of
MCCharacter.cpp:206-211. -/
def ShortPathCurrQuat (Target CurrQuat : FQuat) : FQuat :=
  let CosTheta := Target.dot CurrQuat
  if CosTheta < 0 then CurrQuat.scale (-1) else CurrQuat

/-- Local `OutputFromQuat` of `UpdateHandLocationAndRotation` (MCCharacter.cpp:213). -/
def OutputFromQuat (Target CurrQuat : FQuat) : FQuat :=
  Target.mul (ShortPathCurrQuat Target CurrQuat).Inverse

/-- Embedding of `AMCCharacter::UpdateHandLocationAndRotation`
(MCCharacter.cpp:186-216).  The motion controller is given by its location and
orientation.  `PIDController3D` is not among the sources: its state type and
its `UpdateAsPD` are parameters. -/
def UpdateHandLocationAndRotation {PID : Type}
    (UpdateAsPD : PID → FVector → ℚ → FVector × PID) (RotationBoost : ℚ)
    (MCLocation : FVector) (MCQuat : FQuat) (RotOffset : FQuat)
    (SkelMesh : USkeletalMeshComponent) (PIDController : PID) (DeltaTime : ℚ) :
    USkeletalMeshComponent × PID :=
  let Error := MCLocation.sub SkelMesh.ComponentLocation
  let r := UpdateAsPD PIDController Error DeltaTime
  let LocOutput := r.1
  let s1 := { SkelMesh with AddedForce := LocOutput }
  let Target := TargetQuat MCQuat RotOffset
  let Out := OutputFromQuat Target s1.ComponentQuat
  let RotOutput := (FVector.mk Out.X Out.Y Out.Z).scale RotationBoost
  ({ s1 with PhysicsAngularVelocity := RotOutput }, r.2)

/-! ## Concrete states used as examples -/

/-- A small movable static mesh actor with physics on: mass 1, length 10. -/
def smallObject : AStaticMeshActor where
  bRootComponentMovable := true
  bSimulatePhysics := true
  Mass := 1
  Length := 10
  AttachParentActor := none
  LinearVelocity := ⟨0, 0, 0⟩

/-- The same small actor, but with a root component that is not movable. -/
def fixedObject : AStaticMeshActor :=
  { smallObject with bRootComponentMovable := false }

/-- A world of freshly constructed hands and small movable objects. -/
def freshWorld : World where
  Hands := fun _ => AHand.ctor
  Objects := fun _ => smallObject

/-- A world of freshly constructed hands in which no object is movable. -/
def fixedWorld : World where
  Hands := fun _ => AHand.ctor
  Objects := fun _ => fixedObject

/-- A hand that holds object 1 while object 0 is still in its list. -/
def busyHand : AHand :=
  { AHand.ctor with GraspedObject := some 1, OneHandGraspableObjects := [0] }

/-- A free hand with objects 0, 1, 0 in reach and with three finger constraints. -/
def freeHand : AHand :=
  { AHand.ctor with
    OneHandGraspableObjects := [0, 1, 0]
    Thumb := ⟨[(EFingerPart.Proximal, 0), (EFingerPart.Distal, 1)]⟩
    Pinky := ⟨[(EFingerPart.Proximal, 2)]⟩ }

/-- A world in which hand 0, moving at velocity (1, 2, 3), holds object 0 while
object 1 is its two-hand candidate; hand 1 is free and has a two-hand grasp
of object 2 active. -/
def holdingWorld : World where
  Hands := fun h =>
    if h = 0 then
      { AHand.ctor with
        GraspedObject := some 0, bGraspHeld := true
        PossibleTwoHandGraspObject := some 1, Velocity := ⟨1, 2, 3⟩ }
    else if h = 1 then
      { AHand.ctor with
        PossibleTwoHandGraspObject := some 2, bTwoHandGraspActive := true }
    else AHand.ctor
  Objects := fun o =>
    if o = 0 then
      { smallObject with
        bSimulatePhysics := false, AttachParentActor := some (AttachParent.Hand 0) }
    else if o = 2 then
      { smallObject with
        bSimulatePhysics := false, AttachParentActor := some (AttachParent.Hand 1) }
    else smallObject

/-- A world in which hand 0 is free, lists object 0 and has object 0 attached to
itself by an active two-hand grasp. -/
def selfAttachedWorld : World where
  Hands := fun h =>
    if h = 0 then
      { AHand.ctor with
        OneHandGraspableObjects := [0]
        PossibleTwoHandGraspObject := some 0, bTwoHandGraspActive := true }
    else AHand.ctor
  Objects := fun o =>
    if o = 0 then
      { smallObject with
        bSimulatePhysics := false, AttachParentActor := some (AttachParent.Hand 0) }
    else smallObject

/-- A world in which hand 0 is free and lists object 0, while hand 1 holds
object 1 as its `GraspedObject` and has object 0 attached to itself by an
active two-hand grasp. -/
def takeoverWorld : World where
  Hands := fun h =>
    if h = 0 then { AHand.ctor with OneHandGraspableObjects := [0] }
    else if h = 1 then
      { AHand.ctor with
        GraspedObject := some 1
        PossibleTwoHandGraspObject := some 0, bTwoHandGraspActive := true }
    else AHand.ctor
  Objects := fun o =>
    if o = 0 ∨ o = 1 then
      { smallObject with
        bSimulatePhysics := false, AttachParentActor := some (AttachParent.Hand 1) }
    else smallObject

/-- A world in which hand 0 is free and lists objects 2 and 0, object 0 being
held by hand 1. -/
def handoverWorld : World where
  Hands := fun h =>
    if h = 0 then { AHand.ctor with OneHandGraspableObjects := [2, 0] }
    else if h = 1 then { AHand.ctor with GraspedObject := some 0, bGraspHeld := true }
    else AHand.ctor
  Objects := fun o =>
    if o = 0 then
      { smallObject with
        bSimulatePhysics := false, AttachParentActor := some (AttachParent.Hand 1) }
    else smallObject

/-! ## Calls that reach a hand -/

/-- The calls that reach a hand: the two overlap delegates bound in
`AHand::BeginPlay`, and the public methods `AttachToHand` (called by
`AMCCharacter::AttachToLeftHand` and `AttachToRightHand`), `DetachFromHand`
and `TwoHandAttach`. -/
inductive HandCall where
  | BeginOverlap (h : HandId) (OtherActor : Option AActor)
  | EndOverlap (h : HandId) (OtherActor : Option AActor)
  | Attach (h : HandId)
  | Detach (h : HandId)
  | TwoHand (h : HandId)

/-- The world after one call; `none` when the call faults. -/
def HandCall.run (w : World) : HandCall → Option World
  | HandCall.BeginOverlap h a =>
    some (w.setHand h (OnAttachmentCollisionBeginOverlap (w.Hands h) w a))
  | HandCall.EndOverlap h a =>
    some (w.setHand h (OnAttachmentCollisionEndOverlap (w.Hands h) a))
  | HandCall.Attach h => (AttachToHand w h).map Prod.snd
  | HandCall.Detach h => some (DetachFromHand w h).2
  | HandCall.TwoHand h => some (TwoHandAttach w h).2

/-- The world after a sequence of calls; `none` when one of them faults. -/
def runCalls (w : World) : List HandCall → Option World
  | [] => some w
  | c :: cs => (c.run w).bind (fun w1 => runCalls w1 cs)

/-- A sequence of calls on fresh hands 0 and 1 after which hand 0 is free, lists
object 0 and has object 0 attached to itself. -/
def selfAttachCalls : List HandCall :=
  [ HandCall.BeginOverlap 0 (some (AActor.StaticMesh 0)),
    HandCall.BeginOverlap 0 (some (AActor.StaticMesh 1)),
    HandCall.BeginOverlap 1 (some (AActor.StaticMesh 0)),
    HandCall.Attach 1,
    HandCall.Attach 0,
    HandCall.EndOverlap 0 (some (AActor.StaticMesh 0)),
    HandCall.Detach 0,
    HandCall.BeginOverlap 0 (some (AActor.StaticMesh 0)),
    HandCall.TwoHand 0 ]

/-- A sequence of calls on fresh hands 0 and 1 after which hand 0 is free and
lists object 0, while hand 1 holds object 1 and has object 0 attached to itself
by a two-hand grasp. -/
def takeoverCalls : List HandCall :=
  [ HandCall.BeginOverlap 0 (some (AActor.StaticMesh 0)),
    HandCall.Attach 0,
    HandCall.BeginOverlap 1 (some (AActor.StaticMesh 0)),
    HandCall.Detach 0,
    HandCall.EndOverlap 0 (some (AActor.StaticMesh 0)),
    HandCall.BeginOverlap 0 (some (AActor.StaticMesh 0)),
    HandCall.TwoHand 1,
    HandCall.BeginOverlap 1 (some (AActor.StaticMesh 1)),
    HandCall.Attach 1 ]

/-- The fields of a hand and of an object that `AttachToHand` and
`DetachFromHand` read and write. -/
structure AttachView where
  GraspedObject : Option ObjId
  OneHandGraspableObjects : List ObjId
  PossibleTwoHandGraspObject : Option ObjId
  bTwoHandGraspActive : Bool
  AttachParentActor : Option AttachParent
  bSimulatePhysics : Bool
deriving DecidableEq

/-- The view of hand `h` and object `o` in world `w`. -/
def attachView (h : HandId) (o : ObjId) (w : World) : AttachView where
  GraspedObject := (w.Hands h).GraspedObject
  OneHandGraspableObjects := (w.Hands h).OneHandGraspableObjects
  PossibleTwoHandGraspObject := (w.Hands h).PossibleTwoHandGraspObject
  bTwoHandGraspActive := (w.Hands h).bTwoHandGraspActive
  AttachParentActor := (w.Objects o).AttachParentActor
  bSimulatePhysics := (w.Objects o).bSimulatePhysics

/-! ## Grasp detection -/

/-- When `IsGraspable` gives `HAND_ONE`, the cast of the actor is not null. -/
theorem IsGraspable_HAND_ONE_cast (self : AHand) (w : World) (InActor : Option AActor)
    (h : IsGraspable self w InActor = HAND_ONE) :
    ∃ o, InActor = some (AActor.StaticMesh o) := by
  unfold IsGraspable at h
  split at h
  · exact ⟨_, rfl⟩
  · cases h

/-- When `IsGraspable` gives `HAND_TWO`, the cast of the actor is not null. -/
theorem IsGraspable_HAND_TWO_cast (self : AHand) (w : World) (InActor : Option AActor)
    (h : IsGraspable self w InActor = HAND_TWO) :
    ∃ o, InActor = some (AActor.StaticMesh o) := by
  unfold IsGraspable at h
  split at h
  · exact ⟨_, rfl⟩
  · cases h

/-- C1: `IsGraspable` returns `HAND_ONE` exactly when the actor is a static mesh
actor with a static mesh component, its root component is movable, the
component simulates physics, its mass is strictly below
`OneHandFixationMaximumMass` and its length strictly below
`OneHandFixationMaximumLength`; in every other case the result is `HAND_TWO`
or `HAND_NONE`. -/
theorem IsGraspable_HAND_ONE_iff (self : AHand) (w : World) (InActor : Option AActor) :
    (IsGraspable self w InActor = HAND_ONE ↔
      ∃ o, InActor = some (AActor.StaticMesh o)
        ∧ (w.Objects o).bRootComponentMovable = true
        ∧ (w.Objects o).bSimulatePhysics = true
        ∧ (w.Objects o).Mass < self.OneHandFixationMaximumMass
        ∧ (w.Objects o).Length < self.OneHandFixationMaximumLength)
    ∧ (IsGraspable self w InActor ≠ HAND_ONE →
        IsGraspable self w InActor = HAND_TWO ∨ IsGraspable self w InActor = HAND_NONE) := by
  refine ⟨⟨fun h => ?_, ?_⟩, fun h => ?_⟩
  · obtain ⟨o, rfl⟩ := IsGraspable_HAND_ONE_cast self w InActor h
    refine ⟨o, rfl, ?_⟩
    simp only [IsGraspable] at h
    split_ifs at h with h1
    simpa [and_assoc] using h1
  · rintro ⟨o, rfl, hm, hp, hmass, hlen⟩
    simp [IsGraspable, hm, hp, hmass, hlen]
  · cases hc : IsGraspable self w InActor with
    | HAND_NONE => exact Or.inr rfl
    | HAND_ONE => exact absurd hc h
    | HAND_TWO => exact Or.inl rfl

/-- C1, at the thresholds of the constructor: a movable simulating actor of mass
1 and length 10 is `HAND_ONE`, and the same actor of mass exactly 5 is not. -/
theorem IsGraspable_ctor_examples :
    IsGraspable AHand.ctor freshWorld (some (AActor.StaticMesh 0)) = HAND_ONE
    ∧ IsGraspable AHand.ctor
        { freshWorld with Objects := fun _ => { smallObject with Mass := 5 } }
        (some (AActor.StaticMesh 0)) = HAND_TWO := by
  constructor <;> decide

/-- C2 fails on the code: a static mesh actor whose root component is not
movable, of mass 1 and length 10, is reported as `HAND_TWO` by a freshly
constructed hand, not as `HAND_NONE`. -/
theorem IsGraspable_not_movable_HAND_TWO :
    (fixedWorld.Objects 0).bRootComponentMovable = false
    ∧ IsGraspable AHand.ctor fixedWorld (some (AActor.StaticMesh 0)) = HAND_TWO := by
  constructor <;> decide

/-- What the code does guarantee for a graspable report: the actor is a static
mesh actor with its component, and either it passes the one-hand test with a
movable root and physics on, or its mass and length are below the two-hand
limits. -/
theorem IsGraspable_graspable (self : AHand) (w : World) (InActor : Option AActor)
    (h : IsGraspable self w InActor ≠ HAND_NONE) :
    ∃ o, InActor = some (AActor.StaticMesh o)
      ∧ (((w.Objects o).bRootComponentMovable = true
            ∧ (w.Objects o).bSimulatePhysics = true
            ∧ (w.Objects o).Mass < self.OneHandFixationMaximumMass
            ∧ (w.Objects o).Length < self.OneHandFixationMaximumLength)
          ∨ ((w.Objects o).Mass < self.TwoHandsFixationMaximumMass
            ∧ (w.Objects o).Length < self.TwoHandsFixationMaximumLength)) := by
  have hcast : ∃ o, InActor = some (AActor.StaticMesh o) := by
    cases hc : IsGraspable self w InActor with
    | HAND_NONE => exact absurd hc h
    | HAND_ONE => exact IsGraspable_HAND_ONE_cast self w InActor hc
    | HAND_TWO => exact IsGraspable_HAND_TWO_cast self w InActor hc
  obtain ⟨o, rfl⟩ := hcast
  refine ⟨o, rfl, ?_⟩
  simp only [IsGraspable] at h
  split_ifs at h with h1 h2
  · exact Or.inl (by simpa [and_assoc] using h1)
  · exact Or.inr h2
  · exact absurd rfl h

/-! ## Overlap events -/

/-- C8: `OnAttachmentCollisionBeginOverlap` reacts only while the hand is free.
With a grasped object the hand is unchanged; on a free hand an actor classified
`HAND_ONE` is appended at the end of `OneHandGraspableObjects` and nothing else
changes, an actor classified `HAND_TWO` replaces `PossibleTwoHandGraspObject`
and nothing else changes, and an actor classified `HAND_NONE` changes nothing. -/
theorem OnAttachmentCollisionBeginOverlap_spec (self : AHand) (w : World)
    (OtherActor : Option AActor) :
    (self.GraspedObject ≠ none →
      OnAttachmentCollisionBeginOverlap self w OtherActor = self)
    ∧ (self.GraspedObject = none → IsGraspable self w OtherActor = HAND_ONE →
        ∃ o, OtherActor = some (AActor.StaticMesh o)
          ∧ OnAttachmentCollisionBeginOverlap self w OtherActor =
            { self with OneHandGraspableObjects := self.OneHandGraspableObjects ++ [o] })
    ∧ (self.GraspedObject = none → IsGraspable self w OtherActor = HAND_TWO →
        ∃ o, OtherActor = some (AActor.StaticMesh o)
          ∧ OnAttachmentCollisionBeginOverlap self w OtherActor =
            { self with PossibleTwoHandGraspObject := some o })
    ∧ (self.GraspedObject = none → IsGraspable self w OtherActor = HAND_NONE →
        OnAttachmentCollisionBeginOverlap self w OtherActor = self) := by
  refine ⟨fun h => ?_, fun h h1 => ?_, fun h h2 => ?_, fun h h0 => ?_⟩
  · cases hg : self.GraspedObject with
    | none => exact absurd hg h
    | some g => simp [OnAttachmentCollisionBeginOverlap, hg]
  · obtain ⟨o, rfl⟩ := IsGraspable_HAND_ONE_cast self w OtherActor h1
    exact ⟨o, rfl, by simp [OnAttachmentCollisionBeginOverlap, h, h1, CastStaticMesh]⟩
  · obtain ⟨o, rfl⟩ := IsGraspable_HAND_TWO_cast self w OtherActor h2
    exact ⟨o, rfl, by simp [OnAttachmentCollisionBeginOverlap, h, h2, CastStaticMesh]⟩
  · simp [OnAttachmentCollisionBeginOverlap, h, h0]

/-- C8 at concrete inputs: a busy hand ignores a graspable actor, a fresh hand
appends a `HAND_ONE` actor, records a `HAND_TWO` actor and ignores an actor of
another class. -/
theorem OnAttachmentCollisionBeginOverlap_spec_witness :
    busyHand.GraspedObject ≠ none
    ∧ OnAttachmentCollisionBeginOverlap busyHand freshWorld (some (AActor.StaticMesh 2))
        = busyHand
    ∧ AHand.ctor.GraspedObject = none
    ∧ IsGraspable AHand.ctor freshWorld (some (AActor.StaticMesh 2)) = HAND_ONE
    ∧ (OnAttachmentCollisionBeginOverlap AHand.ctor freshWorld
        (some (AActor.StaticMesh 2))).OneHandGraspableObjects = [2]
    ∧ IsGraspable AHand.ctor fixedWorld (some (AActor.StaticMesh 2)) = HAND_TWO
    ∧ (OnAttachmentCollisionBeginOverlap AHand.ctor fixedWorld
        (some (AActor.StaticMesh 2))).PossibleTwoHandGraspObject = some 2
    ∧ IsGraspable AHand.ctor freshWorld (some AActor.OtherClass) = HAND_NONE
    ∧ OnAttachmentCollisionBeginOverlap AHand.ctor freshWorld (some AActor.OtherClass)
        = AHand.ctor :=
  ⟨by decide,
   (OnAttachmentCollisionBeginOverlap_spec busyHand freshWorld _).1 (by decide),
   rfl, by decide,
   by
     obtain ⟨o, ho, h⟩ :=
       (OnAttachmentCollisionBeginOverlap_spec AHand.ctor freshWorld
         (some (AActor.StaticMesh 2))).2.1 rfl (by decide)
     cases ho
     rw [h]
     rfl,
   by decide,
   by
     obtain ⟨o, ho, h⟩ :=
       (OnAttachmentCollisionBeginOverlap_spec AHand.ctor fixedWorld
         (some (AActor.StaticMesh 2))).2.2.1 rfl (by decide)
     cases ho
     rw [h],
   by decide,
   (OnAttachmentCollisionBeginOverlap_spec AHand.ctor freshWorld _).2.2.2 rfl (by decide)⟩

/-- C5 as stated fails: a hand that holds object 1 and still lists object 0
keeps object 0 in `OneHandGraspableObjects` after the end of the overlap with
object 0. -/
theorem OnAttachmentCollisionEndOverlap_busy_keeps :
    0 ∈ busyHand.OneHandGraspableObjects
    ∧ 0 ∈ (OnAttachmentCollisionEndOverlap busyHand
        (some (AActor.StaticMesh 0))).OneHandGraspableObjects := by
  constructor <;> decide

/-- C5 amended: after `OnAttachmentCollisionEndOverlap` for a static mesh actor
on a hand with no `GraspedObject`, the actor is no longer an element of
`OneHandGraspableObjects`: every occurrence is removed, the other elements
keep their order and nothing else in the hand changes; on a hand that has a
`GraspedObject` the hand is unchanged. -/
theorem OnAttachmentCollisionEndOverlap_spec (self : AHand) (o : ObjId) :
    (self.GraspedObject = none →
      o ∉ (OnAttachmentCollisionEndOverlap self
            (some (AActor.StaticMesh o))).OneHandGraspableObjects
      ∧ OnAttachmentCollisionEndOverlap self (some (AActor.StaticMesh o)) =
          { self with
            OneHandGraspableObjects :=
              self.OneHandGraspableObjects.filter (fun x => x ≠ o) })
    ∧ (self.GraspedObject ≠ none →
      OnAttachmentCollisionEndOverlap self (some (AActor.StaticMesh o)) = self) := by
  refine ⟨fun h => ?_, fun h => ?_⟩
  · simp [OnAttachmentCollisionEndOverlap, h, CastStaticMesh, TArrayRemove, List.mem_filter]
  · cases hg : self.GraspedObject with
    | none => exact absurd hg h
    | some g => simp [OnAttachmentCollisionEndOverlap, hg]

/-- C5 amended, at concrete inputs: the free hand listing 0, 1, 0 lists only 1
afterwards, and the busy hand is unchanged. -/
theorem OnAttachmentCollisionEndOverlap_spec_witness :
    freeHand.GraspedObject = none
    ∧ (OnAttachmentCollisionEndOverlap freeHand
        (some (AActor.StaticMesh 0))).OneHandGraspableObjects = [1]
    ∧ busyHand.GraspedObject ≠ none
    ∧ OnAttachmentCollisionEndOverlap busyHand (some (AActor.StaticMesh 0)) = busyHand :=
  ⟨rfl,
   by rw [((OnAttachmentCollisionEndOverlap_spec freeHand 0).1 rfl).2]; decide,
   by decide,
   (OnAttachmentCollisionEndOverlap_spec busyHand 0).2 (by decide)⟩

/-! ## Finger targets -/

/-- One finger loop, constraint by constraint: a constraint the finger's map
points to gets the target, every other constraint is left as it was. -/
theorem SetFingerTargets_apply (Finger : FFinger) (Target : FRotator)
    (cs : ConstraintId → FConstraintInstance) (c : ConstraintId) :
    SetFingerTargets Finger Target cs c =
      if c ∈ Finger.FingerPartToConstraint.map Prod.snd then ⟨Target⟩ else cs c := by
  obtain ⟨entries⟩ := Finger
  simp only [SetFingerTargets]
  induction entries generalizing cs with
  | nil => simp
  | cons e es ih =>
    rw [List.foldl_cons, ih]
    by_cases hmem : c ∈ es.map Prod.snd
    · simp [hmem]
    · by_cases hc : c = e.2
      · subst hc
        simp [hmem]
      · have hne : ¬ e.2 = c := fun h => hc h.symm
        simp [hmem, hc, Function.update_noteq hc]

/-- The five loops of `UpdateGrasp` on a free hand, constraint by constraint. -/
theorem UpdateGrasp_Constraints_apply (self : AHand) (Goal : ℚ) (c : ConstraintId)
    (hfree : self.GraspedObject = none) :
    (UpdateGrasp self Goal).Constraints c =
      if c ∈ self.Thumb.FingerPartToConstraint.map Prod.snd
          ∨ c ∈ self.Index.FingerPartToConstraint.map Prod.snd
          ∨ c ∈ self.Middle.FingerPartToConstraint.map Prod.snd
          ∨ c ∈ self.Ring.FingerPartToConstraint.map Prod.snd
          ∨ c ∈ self.Pinky.FingerPartToConstraint.map Prod.snd
      then ⟨⟨0, 0, Goal * 100⟩⟩ else self.Constraints c := by
  simp only [UpdateGrasp, hfree, SetFingerTargets_apply]
  by_cases h1 : c ∈ self.Thumb.FingerPartToConstraint.map Prod.snd <;>
  by_cases h2 : c ∈ self.Index.FingerPartToConstraint.map Prod.snd <;>
  by_cases h3 : c ∈ self.Middle.FingerPartToConstraint.map Prod.snd <;>
  by_cases h4 : c ∈ self.Ring.FingerPartToConstraint.map Prod.snd <;>
  by_cases h5 : c ∈ self.Pinky.FingerPartToConstraint.map Prod.snd <;>
  simp [h1, h2, h3, h4, h5]

/-- C6: on a hand with no `GraspedObject`, `UpdateGrasp` sets the angular
orientation target of every constraint of all five fingers to the rotation
with pitch 0, yaw 0 and roll `Goal * 100`, and changes neither `GraspedObject`
nor `bGraspHeld`; on a hand that has a `GraspedObject` it changes no constraint
target (nor anything but `bGraspHeld`), and `bGraspHeld` is true afterwards. -/
theorem UpdateGrasp_spec (self : AHand) (Goal : ℚ) :
    (self.GraspedObject = none →
      (∀ Finger ∈ [self.Thumb, self.Index, self.Middle, self.Ring, self.Pinky],
        ∀ ConstrMapItr ∈ Finger.FingerPartToConstraint,
          ((UpdateGrasp self Goal).Constraints ConstrMapItr.2).AngularOrientationTarget
            = FRotator.mk 0 0 (Goal * 100))
      ∧ (UpdateGrasp self Goal).GraspedObject = self.GraspedObject
      ∧ (UpdateGrasp self Goal).bGraspHeld = self.bGraspHeld)
    ∧ (self.GraspedObject ≠ none →
      (UpdateGrasp self Goal).Constraints = self.Constraints
      ∧ (self.bGraspHeld = false → (UpdateGrasp self Goal).bGraspHeld = true)
      ∧ UpdateGrasp self Goal = { self with bGraspHeld := true }) := by
  refine ⟨fun hfree => ⟨?_, ?_, ?_⟩, fun hbusy => ?_⟩
  · intro Finger hF e he
    have hmem : e.2 ∈ Finger.FingerPartToConstraint.map Prod.snd :=
      List.mem_map.mpr ⟨e, he, rfl⟩
    rw [UpdateGrasp_Constraints_apply self Goal e.2 hfree]
    simp only [List.mem_cons, List.mem_singleton, List.not_mem_nil, or_false] at hF
    rcases hF with rfl | rfl | rfl | rfl | rfl <;> simp [hmem]
  · simp [UpdateGrasp, hfree]
  · simp [UpdateGrasp, hfree]
  · rcases self with ⟨g, l, p, held, rest⟩
    cases g with
    | none => exact absurd rfl hbusy
    | some g => cases held <;> simp [UpdateGrasp, HoldGrasp]

/-- C6 at concrete inputs: on the free hand with thumb constraints 0, 1 and
pinky constraint 2, goal 1/2 gives roll 50 on constraint 2; on the busy hand
the grasp becomes held. -/
theorem UpdateGrasp_spec_witness :
    freeHand.GraspedObject = none
    ∧ ((UpdateGrasp freeHand (1 / 2)).Constraints 2).AngularOrientationTarget
        = FRotator.mk 0 0 (1 / 2 * 100)
    ∧ busyHand.GraspedObject ≠ none
    ∧ busyHand.bGraspHeld = false
    ∧ (UpdateGrasp busyHand (1 / 2)).bGraspHeld = true :=
  ⟨rfl,
   ((UpdateGrasp_spec freeHand (1 / 2)).1 rfl).1 freeHand.Pinky (by simp)
     (EFingerPart.Proximal, 2) (by simp [freeHand]),
   by decide, rfl,
   ((UpdateGrasp_spec busyHand (1 / 2)).2 (by decide)).2.1 rfl⟩

/-! ## Detaching -/

/-- `ReleaseObject` does not touch the hands. -/
theorem ReleaseObject_Hands (w : World) (o : ObjId) (v : FVector) :
    (ReleaseObject w o v).Hands = w.Hands := rfl

/-- `ReleaseObject` on the released object: detached, simulating, with the given
velocity, everything else as before. -/
theorem ReleaseObject_Objects_same (w : World) (o : ObjId) (v : FVector) :
    (ReleaseObject w o v).Objects o =
      { w.Objects o with
        AttachParentActor := none, bSimulatePhysics := true, LinearVelocity := v } := by
  simp [ReleaseObject, World.setObject]

/-- `ReleaseObject` leaves every other object as it was. -/
theorem ReleaseObject_Objects_ne (w : World) (o x : ObjId) (v : FVector) (h : x ≠ o) :
    (ReleaseObject w o v).Objects x = w.Objects x := by
  simp [ReleaseObject, World.setObject, Function.update_noteq h]

/-- C4: `DetachFromHand` returns true exactly when `GraspedObject` is set, or
`bTwoHandGraspActive` is true and `PossibleTwoHandGraspObject` is set.  When
`GraspedObject` was set, afterwards `GraspedObject` is null, `bGraspHeld` is
false, the released object is detached, simulates physics and has the hand's
velocity as linear velocity, and `PossibleTwoHandGraspObject` and
`bTwoHandGraspActive` are unchanged.  When it returns false, nothing changed. -/
theorem DetachFromHand_spec (w : World) (self : HandId) :
    ((DetachFromHand w self).1 = true ↔
      (w.Hands self).GraspedObject ≠ none
        ∨ ((w.Hands self).bTwoHandGraspActive = true
            ∧ (w.Hands self).PossibleTwoHandGraspObject ≠ none))
    ∧ (∀ g, (w.Hands self).GraspedObject = some g →
        (((DetachFromHand w self).2).Hands self).GraspedObject = none
        ∧ (((DetachFromHand w self).2).Hands self).bGraspHeld = false
        ∧ (((DetachFromHand w self).2).Objects g).AttachParentActor = none
        ∧ (((DetachFromHand w self).2).Objects g).bSimulatePhysics = true
        ∧ (((DetachFromHand w self).2).Objects g).LinearVelocity = (w.Hands self).Velocity
        ∧ (((DetachFromHand w self).2).Hands self).PossibleTwoHandGraspObject
            = (w.Hands self).PossibleTwoHandGraspObject
        ∧ (((DetachFromHand w self).2).Hands self).bTwoHandGraspActive
            = (w.Hands self).bTwoHandGraspActive)
    ∧ ((DetachFromHand w self).1 = false → (DetachFromHand w self).2 = w) := by
  cases hg : (w.Hands self).GraspedObject with
  | some g =>
    refine ⟨by simp [DetachFromHand, hg], ?_, by simp [DetachFromHand, hg]⟩
    intro g2 hg2
    cases hg2
    simp [DetachFromHand, hg, World.setHand, ReleaseObject_Objects_same, ReleaseObject_Hands]
  | none =>
    refine ⟨?_, fun g hg2 => (by cases hg2), ?_⟩
    · cases ha : (w.Hands self).bTwoHandGraspActive <;>
      cases hp : (w.Hands self).PossibleTwoHandGraspObject <;>
      simp [DetachFromHand, hg, ha, hp]
    · cases ha : (w.Hands self).bTwoHandGraspActive <;>
      cases hp : (w.Hands self).PossibleTwoHandGraspObject <;>
      simp [DetachFromHand, hg, ha, hp]

/-- C4 at concrete inputs: hand 0 of `holdingWorld` releases object 0 with its
velocity (1, 2, 3); hand 2, which tracks nothing, returns false and changes
nothing. -/
theorem DetachFromHand_spec_witness :
    (holdingWorld.Hands 0).GraspedObject = some 0
    ∧ (((DetachFromHand holdingWorld 0).2).Hands 0).GraspedObject = none
    ∧ (((DetachFromHand holdingWorld 0).2).Objects 0).LinearVelocity = FVector.mk 1 2 3
    ∧ (((DetachFromHand holdingWorld 0).2).Hands 0).PossibleTwoHandGraspObject = some 1
    ∧ (DetachFromHand holdingWorld 2).1 = false
    ∧ (DetachFromHand holdingWorld 2).2 = holdingWorld :=
  ⟨rfl,
   ((DetachFromHand_spec holdingWorld 0).2.1 0 rfl).1,
   ((DetachFromHand_spec holdingWorld 0).2.1 0 rfl).2.2.2.2.1,
   ((DetachFromHand_spec holdingWorld 0).2.1 0 rfl).2.2.2.2.2.1,
   rfl,
   (DetachFromHand_spec holdingWorld 2).2.2 rfl⟩

/-- After `DetachFromHand` the hand has no `GraspedObject`, whichever branch ran. -/
theorem DetachFromHand_GraspedObject (w : World) (self : HandId) :
    (((DetachFromHand w self).2).Hands self).GraspedObject = none := by
  cases hg : (w.Hands self).GraspedObject with
  | some g => simp [DetachFromHand, hg, World.setHand]
  | none =>
    cases ha : (w.Hands self).bTwoHandGraspActive <;>
    cases hp : (w.Hands self).PossibleTwoHandGraspObject <;>
    simp [DetachFromHand, hg, ha, hp, World.setHand, ReleaseObject_Hands]

/-- `DetachFromHand` leaves every other hand as it was. -/
theorem DetachFromHand_Hands_ne (w : World) (self h : HandId) (hne : h ≠ self) :
    ((DetachFromHand w self).2).Hands h = w.Hands h := by
  cases hg : (w.Hands self).GraspedObject with
  | some g =>
    simp [DetachFromHand, hg, World.setHand, Function.update_noteq hne, ReleaseObject_Hands]
  | none =>
    cases ha : (w.Hands self).bTwoHandGraspActive <;>
    cases hp : (w.Hands self).PossibleTwoHandGraspObject <;>
    simp [DetachFromHand, hg, ha, hp, World.setHand, Function.update_noteq hne,
      ReleaseObject_Hands]

/-! ## Attaching -/

/-- A list that is not empty has a last element, and only such a list has. -/
theorem getLast?_eq_some_iff_ne_nil (xs : List ObjId) :
    (∃ o, xs.getLast? = some o) ↔ xs ≠ [] := by
  cases xs with
  | nil => simp
  | cons x xs => simp [List.getLast?_cons_cons, List.getLast?_eq_getLast]

/-- `AttachToHand` returns false and changes nothing when the hand has a
`GraspedObject` or `OneHandGraspableObjects` is empty. -/
theorem AttachToHand_false (w : World) (self : HandId)
    (h : (w.Hands self).GraspedObject ≠ none ∨ (w.Hands self).OneHandGraspableObjects = []) :
    AttachToHand w self = some (false, w) := by
  rcases h with h | h
  · cases hg : (w.Hands self).GraspedObject with
    | none => exact absurd hg h
    | some g => simp [AttachToHand, hg]
  · cases hg : (w.Hands self).GraspedObject <;> simp [AttachToHand, hg, h]

/-- `AttachToHand` on a free hand whose last listed object `o` is not attached
to this same hand: it returns true, `GraspedObject` is `o`, the list has lost
its last element, and `o` is attached to this hand with physics off. -/
theorem AttachToHand_true (w : World) (self : HandId) (o : ObjId)
    (hfree : (w.Hands self).GraspedObject = none)
    (hlast : (w.Hands self).OneHandGraspableObjects.getLast? = some o)
    (hpar : (w.Objects o).AttachParentActor ≠ some (AttachParent.Hand self)) :
    ∃ w', AttachToHand w self = some (true, w')
      ∧ (w'.Hands self).GraspedObject = some o
      ∧ (w'.Hands self).OneHandGraspableObjects
          = (w.Hands self).OneHandGraspableObjects.dropLast
      ∧ (w'.Objects o).bSimulatePhysics = false
      ∧ (w'.Objects o).AttachParentActor = some (AttachParent.Hand self) := by
  simp only [AttachToHand, hfree, hlast]
  cases hp : (w.Objects o).AttachParentActor with
  | none => simp [World.setHand, World.setObject, hp]
  | some p =>
    cases p with
    | Other => simp [World.setHand, World.setObject, hp]
    | Hand B =>
      have hne : self ≠ B := by
        rintro rfl
        exact hpar hp
      have hh := DetachFromHand_Hands_ne
        (w.setHand self
          { w.Hands self with
            GraspedObject := some o
            OneHandGraspableObjects := (w.Hands self).OneHandGraspableObjects.dropLast })
        B self hne
      simp [World.setHand, World.setObject, hp] at hh ⊢
      simp [hh]

/-- `AttachToHand` on a free hand `A` whose last listed object `O` is attached to
another hand `B`: the world afterwards, written out. -/
theorem AttachToHand_other_hand_eq (w : World) (A B : HandId) (O : ObjId)
    (hAB : A ≠ B) (hfree : (w.Hands A).GraspedObject = none)
    (hlast : (w.Hands A).OneHandGraspableObjects.getLast? = some O)
    (hpar : (w.Objects O).AttachParentActor = some (AttachParent.Hand B)) :
    AttachToHand w A = some (true,
      (((DetachFromHand
          (w.setHand A
            { w.Hands A with
              GraspedObject := some O
              OneHandGraspableObjects := (w.Hands A).OneHandGraspableObjects.dropLast })
          B).2).setObject O
        { ((DetachFromHand
            (w.setHand A
              { w.Hands A with
                GraspedObject := some O
                OneHandGraspableObjects := (w.Hands A).OneHandGraspableObjects.dropLast })
            B).2).Objects O with
          bSimulatePhysics := false
          AttachParentActor := some (AttachParent.Hand A) })) := by
  have hh := DetachFromHand_Hands_ne
    (w.setHand A
      { w.Hands A with
        GraspedObject := some O
        OneHandGraspableObjects := (w.Hands A).OneHandGraspableObjects.dropLast })
    B A hAB
  simp only [AttachToHand, hfree, hlast]
  simp [World.setHand, World.setObject, hpar] at hh ⊢
  simp [hh]

/-- C3 fails on the code when the popped object is attached to this same hand:
`AttachToHand` on a free hand whose last listed object has this hand as attach
parent calls `DetachFromHand` on itself, which clears the `GraspedObject` just
set, and then dereferences the null `GraspedObject`; it neither returns true
nor leaves the object grasped. -/
theorem AttachToHand_self_parent_faults (w : World) (self : HandId) (o : ObjId)
    (hfree : (w.Hands self).GraspedObject = none)
    (hlast : (w.Hands self).OneHandGraspableObjects.getLast? = some o)
    (hpar : (w.Objects o).AttachParentActor = some (AttachParent.Hand self)) :
    AttachToHand w self = none := by
  have hg := DetachFromHand_GraspedObject
    (w.setHand self
      { w.Hands self with
        GraspedObject := some o
        OneHandGraspableObjects := (w.Hands self).OneHandGraspableObjects.dropLast })
    self
  simp only [AttachToHand, hfree, hlast]
  simp [World.setHand, hpar] at hg ⊢
  simp [hg]

/-- C3 at the failing input: hand 0 of `selfAttachedWorld` is free and its list
is not empty, yet `AttachToHand` faults. -/
theorem AttachToHand_self_parent_faults_witness :
    (selfAttachedWorld.Hands 0).GraspedObject = none
    ∧ (selfAttachedWorld.Hands 0).OneHandGraspableObjects = [0]
    ∧ (selfAttachedWorld.Objects 0).AttachParentActor = some (AttachParent.Hand 0)
    ∧ AttachToHand selfAttachedWorld 0 = none :=
  ⟨rfl, rfl, rfl, AttachToHand_self_parent_faults selfAttachedWorld 0 0 rfl rfl rfl⟩

/-- The failing input of C3 is reached by calls on fresh hands: after
`selfAttachCalls` hand 0 is free, lists object 0 and is the attach parent of
object 0, and one more `AttachToHand` on hand 0 faults. -/
theorem selfAttachCalls_reach :
    (runCalls freshWorld selfAttachCalls).map (attachView 0 0)
      = some ⟨none, [0], some 0, true, some (AttachParent.Hand 0), false⟩
    ∧ ((runCalls freshWorld (selfAttachCalls ++ [HandCall.Attach 0])).map
        (attachView 0 0)) = none := by
  constructor <;> decide

/-- C7 fails on the code when the other hand holds a different object: when
hand `A` pops object `O` whose attach parent is another hand `B` that is
grasping a different object `X`, `A.AttachToHand` returns true, but `B` has
released `X` (no longer its `GraspedObject`, detached, simulating physics)
instead of keeping it. -/
theorem AttachToHand_releases_other_grasp (w : World) (A B : HandId) (O X : ObjId)
    (hAB : A ≠ B) (hfree : (w.Hands A).GraspedObject = none)
    (hlast : (w.Hands A).OneHandGraspableObjects.getLast? = some O)
    (hpar : (w.Objects O).AttachParentActor = some (AttachParent.Hand B))
    (hX : (w.Hands B).GraspedObject = some X) (hXO : X ≠ O) :
    ∃ w', AttachToHand w A = some (true, w')
      ∧ (w'.Hands B).GraspedObject = none
      ∧ (w'.Objects X).AttachParentActor = none
      ∧ (w'.Objects X).bSimulatePhysics = true := by
  refine ⟨_, AttachToHand_other_hand_eq w A B O hAB hfree hlast hpar, ?_, ?_, ?_⟩
  · have hg := DetachFromHand_GraspedObject
      (w.setHand A
        { w.Hands A with
          GraspedObject := some O
          OneHandGraspableObjects := (w.Hands A).OneHandGraspableObjects.dropLast })
      B
    simpa [World.setObject] using hg
  · simp [World.setObject, World.setHand, DetachFromHand, Function.update_noteq hAB.symm,
      Function.update_noteq hXO, hX, ReleaseObject_Objects_same]
  · simp [World.setObject, World.setHand, DetachFromHand, Function.update_noteq hAB.symm,
      Function.update_noteq hXO, hX, ReleaseObject_Objects_same]

/-- C7 at the failing input: in `takeoverWorld` hand 1 grasps object 1 and has
object 0 attached; after hand 0 attaches object 0, hand 1 grasps nothing and
object 1 is detached and simulating physics. -/
theorem AttachToHand_releases_other_grasp_witness :
    (takeoverWorld.Hands 1).GraspedObject = some 1
    ∧ (takeoverWorld.Objects 0).AttachParentActor = some (AttachParent.Hand 1)
    ∧ (AttachToHand takeoverWorld 0).map
        (fun r => (r.1, (r.2.Hands 1).GraspedObject, (r.2.Objects 1).AttachParentActor,
          (r.2.Objects 1).bSimulatePhysics))
      = some (true, none, none, true) := by
  refine ⟨rfl, rfl, ?_⟩
  obtain ⟨w', h, h1, h2, h3⟩ :=
    AttachToHand_releases_other_grasp takeoverWorld 0 1 0 1 (by decide) rfl rfl rfl rfl
      (by decide)
  rw [h]
  simp [h1, h2, h3]

/-- The failing input of C7 is reached by calls on fresh hands: after
`takeoverCalls` hand 0 is free and lists object 0, whose attach parent is hand
1, and hand 1 grasps object 1; one more `AttachToHand` on hand 0 leaves hand 1
with no `GraspedObject`. -/
theorem takeoverCalls_reach :
    (runCalls freshWorld takeoverCalls).map (attachView 0 0)
      = some ⟨none, [0], none, false, some (AttachParent.Hand 1), false⟩
    ∧ (runCalls freshWorld takeoverCalls).map (attachView 1 1)
      = some ⟨some 1, [], some 0, true, some (AttachParent.Hand 1), false⟩
    ∧ (runCalls freshWorld (takeoverCalls ++ [HandCall.Attach 0])).map (attachView 1 1)
      = some ⟨none, [], some 0, true, none, true⟩
    ∧ (runCalls freshWorld (takeoverCalls ++ [HandCall.Attach 0])).map (attachView 0 0)
      = some ⟨some 0, [], none, false, some (AttachParent.Hand 0), false⟩ := by
  refine ⟨?_, ?_, ?_, ?_⟩ <;> decide

/-- The handover the check of Hand.cpp:375 is written for: when hand `A` pops
object `O` whose attach parent is another hand `B`, `A.AttachToHand` returns
true, `A.GraspedObject` is `O`, `O` is attached to `A` with physics off, and
`B` has no `GraspedObject`; so `O` is not the `GraspedObject` of both hands. -/
theorem AttachToHand_takes_over (w : World) (A B : HandId) (O : ObjId)
    (hAB : A ≠ B) (hfree : (w.Hands A).GraspedObject = none)
    (hlast : (w.Hands A).OneHandGraspableObjects.getLast? = some O)
    (hpar : (w.Objects O).AttachParentActor = some (AttachParent.Hand B)) :
    ∃ w', AttachToHand w A = some (true, w')
      ∧ (w'.Hands A).GraspedObject = some O
      ∧ (w'.Objects O).bSimulatePhysics = false
      ∧ (w'.Objects O).AttachParentActor = some (AttachParent.Hand A)
      ∧ (w'.Hands B).GraspedObject = none := by
  have hne : (w.Objects O).AttachParentActor ≠ some (AttachParent.Hand A) := by
    rw [hpar]
    intro h
    cases h
    exact hAB rfl
  obtain ⟨w', h, h1, -, h3, h4⟩ := AttachToHand_true w A O hfree hlast hne
  refine ⟨w', h, h1, h3, h4, ?_⟩
  have heq := AttachToHand_other_hand_eq w A B O hAB hfree hlast hpar
  rw [h] at heq
  cases heq
  have hg := DetachFromHand_GraspedObject
    (w.setHand A
      { w.Hands A with
        GraspedObject := some O
        OneHandGraspableObjects := (w.Hands A).OneHandGraspableObjects.dropLast })
    B
  simpa [World.setObject] using hg

/-! ## Hand tracking -/

/-- The W component of `Target * Inverse(C)` is the dot product of `Target` and
`C`. -/
theorem mul_Inverse_W (T C : FQuat) : (T.mul C.Inverse).W = T.dot C := by
  simp only [FQuat.mul, FQuat.Inverse, FQuat.dot]
  ring

/-- Negating a quaternion negates its dot product with another. -/
theorem dot_scale_neg_one (T C : FQuat) : T.dot (C.scale (-1)) = -(T.dot C) := by
  simp only [FQuat.scale, FQuat.dot]
  ring

/-- C9: `UpdateHandLocationAndRotation` avoids the long path around the sphere.
With `T` the controller orientation times the rotation offset, `C` the current
hand quaternion and `C'` equal to `-C` when the dot product of `T` and `C` is
negative and to `C` otherwise, the rotation error `T * Inverse(C')` that the
code computes has a W component equal to the absolute value of the dot product
of `T` and `C`, hence non-negative, and the commanded angular velocity is its
(X, Y, Z) part times `RotationBoost`. -/
theorem UpdateHandLocationAndRotation_short_path {PID : Type}
    (UpdateAsPD : PID → FVector → ℚ → FVector × PID) (RotationBoost : ℚ)
    (MCLocation : FVector) (MCQuat RotOffset : FQuat)
    (SkelMesh : USkeletalMeshComponent) (PIDController : PID) (DeltaTime : ℚ) :
    OutputFromQuat (TargetQuat MCQuat RotOffset) SkelMesh.ComponentQuat
        = (MCQuat.mul RotOffset).mul
            (if (MCQuat.mul RotOffset).dot SkelMesh.ComponentQuat < 0
              then SkelMesh.ComponentQuat.scale (-1)
              else SkelMesh.ComponentQuat).Inverse
    ∧ (OutputFromQuat (TargetQuat MCQuat RotOffset) SkelMesh.ComponentQuat).W
        = |(MCQuat.mul RotOffset).dot SkelMesh.ComponentQuat|
    ∧ 0 ≤ (OutputFromQuat (TargetQuat MCQuat RotOffset) SkelMesh.ComponentQuat).W
    ∧ (UpdateHandLocationAndRotation UpdateAsPD RotationBoost MCLocation MCQuat RotOffset
          SkelMesh PIDController DeltaTime).1.PhysicsAngularVelocity
        = FVector.mk
            ((OutputFromQuat (TargetQuat MCQuat RotOffset) SkelMesh.ComponentQuat).X
              * RotationBoost)
            ((OutputFromQuat (TargetQuat MCQuat RotOffset) SkelMesh.ComponentQuat).Y
              * RotationBoost)
            ((OutputFromQuat (TargetQuat MCQuat RotOffset) SkelMesh.ComponentQuat).Z
              * RotationBoost) := by
  have hW : (OutputFromQuat (TargetQuat MCQuat RotOffset) SkelMesh.ComponentQuat).W
      = |(MCQuat.mul RotOffset).dot SkelMesh.ComponentQuat| := by
    simp only [OutputFromQuat, ShortPathCurrQuat, TargetQuat, mul_Inverse_W]
    split_ifs with h
    · rw [dot_scale_neg_one, abs_of_neg h]
    · rw [abs_of_nonneg (not_lt.mp h)]
  refine ⟨rfl, hW, ?_, rfl⟩
  rw [hW]
  exact abs_nonneg _

/-- C9 at a concrete input: target (0, 0, 0, 1) and current hand quaternion
(0, 0, 1, -1) have dot product -1; the error quaternion is (0, 0, 1, 1), with
W = 1, and with boost 12000 the commanded angular velocity is (0, 0, 12000). -/
theorem UpdateHandLocationAndRotation_short_path_example :
    (TargetQuat ⟨0, 0, 0, 1⟩ ⟨0, 0, 0, 1⟩).dot ⟨0, 0, 1, -1⟩ = -1
    ∧ OutputFromQuat (TargetQuat ⟨0, 0, 0, 1⟩ ⟨0, 0, 0, 1⟩) ⟨0, 0, 1, -1⟩ = ⟨0, 0, 1, 1⟩
    ∧ (UpdateHandLocationAndRotation (fun (p : Unit) e _ => (e, p)) 12000
        ⟨0, 0, 0⟩ ⟨0, 0, 0, 1⟩ ⟨0, 0, 0, 1⟩
        ⟨⟨0, 0, 0⟩, ⟨0, 0, 1, -1⟩, ⟨0, 0, 0⟩, ⟨0, 0, 0⟩⟩ () 1).1.PhysicsAngularVelocity
      = ⟨0, 0, 12000⟩ := by
  refine ⟨?_, ?_, ?_⟩ <;>
    norm_num [UpdateHandLocationAndRotation, OutputFromQuat, ShortPathCurrQuat, TargetQuat,
      FQuat.mul, FQuat.dot, FQuat.scale, FQuat.Inverse, FVector.scale]

end RobCoG
